import Mathlib

/-!
Shallow embedding of `start_services.py` (OpenDiscourse Service Manager).

The external world (HTTP probes, TCP connects, filesystem, subprocess
return codes) is modelled by an oracle structure `World`.  Probes are
indexed by a global probe counter (the `clock`), so the oracle may answer
differently over time exactly as a real network does.  Every operation
also returns the list of observable side effects (`Event`s) it performed,
in order: HTTP GETs, TCP connects, external commands, sleeps.
-/

namespace StartServices

/-- Embedding of the `ServiceConfig` dataclass (fields as in the source). -/
structure ServiceConfig where
  name : String
  port : Nat
  host : String
  health_endpoint : String
  dependencies : List String
  container_name : String
deriving DecidableEq, Repr

/-- Embedding of `ServiceConfig.__post_init__`: an empty `container_name`
is replaced by `"opendiscourse-" ++ name`.  (`dependencies = None` is
modelled by the empty list directly.) -/
def ServiceConfig.postInit (s : ServiceConfig) : ServiceConfig :=
  { s with container_name :=
      if s.container_name = "" then "opendiscourse-" ++ s.name else s.container_name }

/-- Helper mirroring the Python constructor defaults:
`host="localhost"`, `container_name` derived by `__post_init__`. -/
def mkService (nm : String) (port : Nat) (endpoint : String) (deps : List String) :
    ServiceConfig :=
  ServiceConfig.postInit
    { name := nm, port := port, host := "localhost", health_endpoint := endpoint,
      dependencies := deps, container_name := "" }

/-- Observable side effects of the manager. -/
inductive Event where
  | httpGet : String → Event
  | tcpConnect : String → Nat → Event
  | cmd : List String → Event
  | sleep : Nat → Event
  | setupEnv : Event
deriving DecidableEq, Repr

/-- Oracle for the external world.  `httpStatus url t` is the outcome of
the HTTP GET issued as the `t`-th probe overall: `none` models a
`requests.exceptions.RequestException` (timeouts included), `some c` a
response with status code `c`.  `portOpen host port t` is the outcome of
a TCP connect issued as the `t`-th probe.  `runCommand args` is the
return code `subprocess.run` reports for `args` (its `except` branches
already normalise failures to return code 1).  `fileExists` models
`os.path.exists`. -/
structure World where
  httpStatus : String → Nat → Option Nat
  portOpen : String → Nat → Nat → Bool
  fileExists : String → Bool
  runCommand : List String → Int

/-- Manager state: the registry (`self.services`, an insertion-ordered
dict modelled as an association list), the running set
(`self.running_services`), the compose file list, and the probe clock. -/
structure ManagerState where
  services : List (String × ServiceConfig)
  running_services : Finset String
  docker_compose_files : List String
  clock : Nat
deriving DecidableEq

/-- Dict lookup `self.services[name]` / `name in self.services`. -/
def lookupService : List (String × ServiceConfig) → String → Option ServiceConfig
  | [], _ => none
  | (k, v) :: rest, nm => if k = nm then some v else lookupService rest nm

/-- Embedding of the f-string `http://{host}:{port}{health_endpoint}`. -/
def serviceUrl (s : ServiceConfig) : String :=
  "http://" ++ s.host ++ ":" ++ toString s.port ++ s.health_endpoint

/-- Result of a health probe: outcome, advanced probe clock, events. -/
structure ProbeResult where
  ok : Bool
  clock : Nat
  events : List Event
deriving DecidableEq, Repr

/-- One HTTP attempt succeeds when the GET returns a status `< 400`
(an exception, `none`, fails the attempt). -/
def attemptSuccess (w : World) (s : ServiceConfig) (t : Nat) : Bool :=
  match w.httpStatus (serviceUrl s) t with
  | some code => decide (code < 400)
  | none => false

/-- Embedding of the `for attempt in range(timeout)` loop of
`_check_service_health`: each attempt issues one GET; a sub-400 status
returns success immediately, otherwise (error status or request
exception) the loop sleeps 1 second and retries until the ceiling. -/
def healthLoop (w : World) (s : ServiceConfig) : Nat → Nat → ProbeResult
  | 0, clock => ⟨false, clock, []⟩
  | Nat.succ n, clock =>
    match w.httpStatus (serviceUrl s) clock with
    | some code =>
      if code < 400 then ⟨true, clock + 1, [Event.httpGet (serviceUrl s)]⟩
      else
        let r := healthLoop w s n (clock + 1)
        ⟨r.ok, r.clock, Event.httpGet (serviceUrl s) :: Event.sleep 1 :: r.events⟩
    | none =>
      let r := healthLoop w s n (clock + 1)
      ⟨r.ok, r.clock, Event.httpGet (serviceUrl s) :: Event.sleep 1 :: r.events⟩

/-- Embedding of `ServiceManager._check_port`: a single TCP connect. -/
def checkPort (w : World) (host : String) (port : Nat) (clock : Nat) : ProbeResult :=
  ⟨w.portOpen host port clock, clock + 1, [Event.tcpConnect host port]⟩

/-- Embedding of `ServiceManager._check_service_health(service, timeout)`:
an empty `health_endpoint` means a single TCP connect test; otherwise the
bounded HTTP retry loop `healthLoop` runs for `timeout` attempts. -/
def checkServiceHealth (w : World) (s : ServiceConfig) (timeout clock : Nat) : ProbeResult :=
  if s.health_endpoint = "" then checkPort w s.host s.port clock
  else healthLoop w s timeout clock

/-- Embedding of `ServiceManager._wait_for_dependencies`: each dependency
name not in the registry is skipped (`continue`); a registered dependency
is health-checked with a ceiling of 60; the first unhealthy dependency
returns failure. -/
def waitForDeps (w : World) (services : List (String × ServiceConfig)) :
    List String → Nat → ProbeResult
  | [], clock => ⟨true, clock, []⟩
  | d :: rest, clock =>
    match lookupService services d with
    | none => waitForDeps w services rest clock
    | some ds =>
      let h := checkServiceHealth w ds 60 clock
      if h.ok then
        let r := waitForDeps w services rest h.clock
        ⟨r.ok, r.clock, h.events ++ r.events⟩
      else ⟨false, h.clock, h.events⟩

/-- Embedding of `ServiceManager._check_docker`: `docker version` then
`docker-compose version`; a non-zero return code of either aborts. -/
def checkDocker (w : World) : Bool × List Event :=
  if w.runCommand ["docker", "version"] = 0 then
    if w.runCommand ["docker-compose", "version"] = 0 then
      (true, [Event.cmd ["docker", "version"], Event.cmd ["docker-compose", "version"]])
    else
      (false, [Event.cmd ["docker", "version"], Event.cmd ["docker-compose", "version"]])
  else (false, [Event.cmd ["docker", "version"]])

/-- The `docker-compose up` phase of `start_services`: for each existing
compose file run `docker-compose -f file up -d`; a non-zero return code
makes the whole of `start_services` return `False` immediately. -/
def composeUpPhase (w : World) : List String → Bool × List Event
  | [] => (true, [])
  | f :: rest =>
    if w.fileExists f then
      if w.runCommand ["docker-compose", "-f", f, "up", "-d"] = 0 then
        let r := composeUpPhase w rest
        (r.1, Event.cmd ["docker-compose", "-f", f, "up", "-d"] :: r.2)
      else (false, [Event.cmd ["docker-compose", "-f", f, "up", "-d"]])
    else composeUpPhase w rest

/-- Result of the per-service phase: running set, clock, events. -/
structure StepResult where
  running : Finset String
  clock : Nat
  events : List Event
deriving DecidableEq

/-- One iteration of the per-service loop of `start_services`: unknown
names are skipped; a dependency failure skips the service (`continue`)
without probing it; otherwise the service is probed with ceiling 60 and
added to the running set exactly when healthy. -/
def startOneService (w : World) (services : List (String × ServiceConfig)) (nm : String)
    (running : Finset String) (clock : Nat) : StepResult :=
  match lookupService services nm with
  | none => ⟨running, clock, []⟩
  | some svc =>
    let d := waitForDeps w services svc.dependencies clock
    if d.ok then
      let h := checkServiceHealth w svc 60 d.clock
      ⟨if h.ok then insert nm running else running, h.clock, d.events ++ h.events⟩
    else ⟨running, d.clock, d.events⟩

/-- The per-service health-check loop of `start_services`. -/
def healthPhase (w : World) (services : List (String × ServiceConfig)) :
    List String → Finset String → Nat → StepResult
  | [], running, clock => ⟨running, clock, []⟩
  | nm :: rest, running, clock =>
    let r := startOneService w services nm running clock
    let r2 := healthPhase w services rest r.running r.clock
    ⟨r2.running, r2.clock, r.events ++ r2.events⟩

/-- Embedding of `service_names or list(self.services.keys())`: `None`
and the empty list are both falsy, so both target every registered
service in registration order. -/
def servicesToStart (st : ManagerState) (names : Option (List String)) : List String :=
  match names with
  | none => st.services.map Prod.fst
  | some l => if l.isEmpty then st.services.map Prod.fst else l

/-- Result of `start_services`: the returned boolean, state, events. -/
structure StartResult where
  ok : Bool
  state : ManagerState
  events : List Event
deriving DecidableEq

/-- Embedding of `ServiceManager.start_services`: docker check (fatal on
failure), environment setup, `docker-compose up` per existing compose
file (fatal on non-zero return code), then the per-service dependency
wait and health-check loop populating the running set. -/
def start_services (w : World) (names : Option (List String)) (st : ManagerState) :
    StartResult :=
  let dc := checkDocker w
  if dc.1 then
    let up := composeUpPhase w st.docker_compose_files
    if up.1 then
      let ph := healthPhase w st.services (servicesToStart st names) st.running_services st.clock
      { ok := true,
        state := { st with running_services := ph.running, clock := ph.clock },
        events := dc.2 ++ [Event.setupEnv] ++ up.2 ++ ph.events }
    else { ok := false, state := st, events := dc.2 ++ [Event.setupEnv] ++ up.2 }
  else { ok := false, state := st, events := dc.2 }

/-- The teardown commands of `stop_services`: `docker-compose -f file
down` for each existing compose file, in reversed registration order;
return codes are only reported, never acted on. -/
def composeDownEvents (w : World) (files : List String) : List Event :=
  files.reverse.filterMap fun f =>
    if w.fileExists f then some (Event.cmd ["docker-compose", "-f", f, "down"]) else none

/-- Result of `stop_services`: the state and the events. -/
structure StopResult where
  state : ManagerState
  events : List Event
deriving DecidableEq

/-- Embedding of `ServiceManager.stop_services`: runs the teardown over
all compose files (non-zero return codes only print a warning) and then
clears the running set unconditionally.  The `names` argument is never
read. -/
def stop_services (w : World) (names : Option (List String)) (st : ManagerState) :
    StopResult :=
  { state := { st with running_services := ∅ },
    events := composeDownEvents w st.docker_compose_files }

/-- Embedding of `ServiceManager.restart_services`: `stop_services`, a
5-second sleep, then `start_services` on the stopped state. -/
def restart_services (w : World) (names : Option (List String)) (st : ManagerState) :
    StartResult :=
  let s := stop_services w names st
  let r := start_services w names s.state
  { ok := r.ok, state := r.state, events := s.events ++ [Event.sleep 5] ++ r.events }

/-- The loop of `ServiceManager.status`: every registered service is
probed with ceiling 5 and its health boolean reported. -/
def statusLoop (w : World) : List (String × ServiceConfig) → Nat →
    List (String × Bool) × Nat × List Event
  | [], clock => ([], clock, [])
  | (nm, svc) :: rest, clock =>
    let h := checkServiceHealth w svc 5 clock
    let r := statusLoop w rest h.clock
    ((nm, h.ok) :: r.1, r.2.1, h.events ++ r.2.2)

/-- Result of `status`: the reported mapping, state and events. -/
structure StatusResult where
  report : List (String × Bool)
  state : ManagerState
  events : List Event
deriving DecidableEq

/-- Embedding of `ServiceManager.status`: probes every registered service
(ceiling 5) and reports name ↦ health; the method assigns nothing, so the
state passes through with only the probe clock advanced. -/
def status (w : World) (st : ManagerState) : StatusResult :=
  let r := statusLoop w st.services st.clock
  { report := r.1, state := { st with clock := r.2.1 }, events := r.2.2 }

/-- Embedding of `ServiceManager._load_service_config`: the hard-coded
registry, in insertion order. -/
def loadServiceConfig : List (String × ServiceConfig) :=
  [("postgres", mkService "postgres" 5432 "" []),
   ("clickhouse", mkService "clickhouse" 8123 "/ping" []),
   ("neo4j", mkService "neo4j" 7474 "" []),
   ("weaviate", mkService "weaviate" 8080 "/v1/.well-known/ready" []),
   ("qdrant", mkService "qdrant" 6333 "/" []),
   ("rabbitmq", mkService "rabbitmq" 15672 "/" []),
   ("supabase-db", mkService "supabase-db" 5433 "" []),
   ("supabase-auth", mkService "supabase-auth" 9999 "/health" ["supabase-db"]),
   ("kong", mkService "kong" 8001 "/status" []),
   ("openwebui", mkService "openwebui" 3000 "/" []),
   ("localai", mkService "localai" 8081 "/" []),
   ("flowise", mkService "flowise" 3001 "/" []),
   ("n8n", mkService "n8n" 5678 "/" []),
   ("prometheus", mkService "prometheus" 9090 "/-/healthy" []),
   ("grafana", mkService "grafana" 3002 "/api/health" []),
   ("loki", mkService "loki" 3100 "/ready" []),
   ("opensearch", mkService "opensearch" 9200 "/_cluster/health" []),
   ("graylog", mkService "graylog" 9000 "/" ["opensearch"]),
   ("opendiscourse-api", mkService "opendiscourse-api" 3333 "/health" ["postgres", "supabase-auth"]),
   ("opendiscourse-worker", mkService "opendiscourse-worker" 3334 "/health" ["postgres", "rabbitmq"])]

/-- Embedding of `ServiceManager.__init__`. -/
def initialState : ManagerState :=
  { services := loadServiceConfig,
    running_services := ∅,
    docker_compose_files := ["docker-compose.yml", "infrastructure/docker-compose.yml"],
    clock := 0 }

/-- A world in which every service is unreachable: every HTTP GET raises
a request exception and every TCP connect fails. -/
def unreachableWorld : World :=
  { httpStatus := fun _ _ => none,
    portOpen := fun _ _ _ => false,
    fileExists := fun _ => false,
    runCommand := fun _ => 0 }

/-- A world in which every external command exits with return code 1 and
every probe fails; both compose files exist. -/
def teardownFailWorld : World :=
  { httpStatus := fun _ _ => none,
    portOpen := fun _ _ _ => false,
    fileExists := fun _ => true,
    runCommand := fun _ => 1 }

/-- Service A of the spec's two-service start scene: no dependencies. -/
def svcA : ServiceConfig := mkService "A" 1000 "/health" []

/-- Service B of the spec's two-service start scene: depends on A. -/
def svcB : ServiceConfig := mkService "B" 1001 "/health" ["A"]

/-- A manager state whose registry holds exactly A and B. -/
def abState : ManagerState :=
  { services := [("A", svcA), ("B", svcB)],
    running_services := ∅,
    docker_compose_files := [],
    clock := 0 }

/-- A world in which A answers every probe with status 200 and every
other HTTP probe raises; commands succeed, no compose file exists. -/
def abWorld : World :=
  { httpStatus := fun u _ => if u = serviceUrl svcA then some 200 else none,
    portOpen := fun _ _ _ => false,
    fileExists := fun _ => false,
    runCommand := fun _ => 0 }

/-- A dependency service probed by TCP connect only (empty endpoint). -/
def svcD : ServiceConfig := mkService "D" 1002 "" []

/-- A service that depends on `svcD`. -/
def svcS : ServiceConfig := mkService "S" 1003 "/health" ["D"]

/-- A registry holding exactly `svcD` and `svcS`. -/
def sdServices : List (String × ServiceConfig) := [("D", svcD), ("S", svcS)]

/-- A world in which every probe succeeds but the single compose file's
`up` command exits with return code 1 (all other commands succeed). -/
def upFailWorld : World :=
  { httpStatus := fun _ _ => some 200,
    portOpen := fun _ _ _ => true,
    fileExists := fun f => decide (f = "docker-compose.yml"),
    runCommand := fun c =>
      if c = ["docker-compose", "-f", "docker-compose.yml", "up", "-d"] then 1 else 0 }

/-- A manager state with one healthy-looking registered service and one
compose file. -/
def upFailState : ManagerState :=
  { services := [("A", svcA)],
    running_services := ∅,
    docker_compose_files := ["docker-compose.yml"],
    clock := 0 }

/-- The initial registry with a non-empty running set. -/
def runningState : ManagerState :=
  { services := loadServiceConfig,
    running_services := {"postgres", "grafana"},
    docker_compose_files := ["docker-compose.yml", "infrastructure/docker-compose.yml"],
    clock := 0 }

/-- A world where every service is unreachable, in the two-place form
used to quantify over both probe kinds at once. -/
def Unreachable (w : World) : Prop :=
  (∀ u t, w.httpStatus u t = none) ∧ (∀ h p t, w.portOpen h p t = false)

/-- Event `e` is a probe of service `s` (or the sleep between two of its
probe attempts): the only effects a health check of `s` can produce. -/
def eventOfService (e : Event) (s : ServiceConfig) : Prop :=
  e = Event.httpGet (serviceUrl s) ∨ e = Event.tcpConnect s.host s.port ∨ e = Event.sleep 1

/-- A service whose dependency list names a service absent from the
registry. -/
def svcX : ServiceConfig := mkService "X" 1004 "/health" ["ghost"]

/-- A registry holding only `svcX`, so its dependency dangles. -/
def xServices : List (String × ServiceConfig) := [("X", svcX)]

end StartServices

namespace StartServices

/-- Unfolding equation for one iteration of the health-probe loop. -/
theorem healthLoop_succ (w : World) (s : ServiceConfig) (n clock : Nat) :
    healthLoop w s (n + 1) clock =
      if attemptSuccess w s clock then
        ⟨true, clock + 1, [Event.httpGet (serviceUrl s)]⟩
      else
        ⟨(healthLoop w s n (clock + 1)).ok, (healthLoop w s n (clock + 1)).clock,
         Event.httpGet (serviceUrl s) :: Event.sleep 1 :: (healthLoop w s n (clock + 1)).events⟩ := by
  cases h : w.httpStatus (serviceUrl s) clock with
  | some code => by_cases hc : code < 400 <;> simp [healthLoop, attemptSuccess, h, hc]
  | none => simp [healthLoop, attemptSuccess, h]

/-- Shifting the attempt window of a boolean schedule by one. -/
theorem exists_attempt_shift (A : Nat → Bool) (n clock : Nat) (h0 : A clock = false) :
    (∃ i, i < n ∧ A (clock + 1 + i) = true) ↔ (∃ i, i < n + 1 ∧ A (clock + i) = true) := by
  constructor
  · rintro ⟨i, hi, hs⟩
    refine ⟨i + 1, by omega, ?_⟩
    rw [show clock + (i + 1) = clock + 1 + i by omega]
    exact hs
  · rintro ⟨i, hi, hs⟩
    cases i with
    | zero =>
      rw [Nat.add_zero, h0] at hs
      cases hs
    | succ j =>
      refine ⟨j, by omega, ?_⟩
      rw [show clock + 1 + j = clock + (j + 1) by omega]
      exact hs

/-- The HTTP retry loop succeeds exactly when some attempt below the
ceiling gets a sub-400 status. -/
theorem healthLoop_ok_iff (w : World) (s : ServiceConfig) :
    ∀ fuel clock, ((healthLoop w s fuel clock).ok = true ↔
      ∃ i, i < fuel ∧ attemptSuccess w s (clock + i) = true) := by
  intro fuel
  induction fuel with
  | zero =>
    intro clock
    simp [healthLoop]
  | succ n ih =>
    intro clock
    rw [healthLoop_succ]
    cases ha : attemptSuccess w s clock with
    | true =>
      simp only [ha, if_true]
      constructor
      · intro _
        exact ⟨0, by omega, by simpa using ha⟩
      · intro _
        trivial
    | false =>
      simp only [ha, Bool.false_eq_true, if_false]
      rw [show (⟨(healthLoop w s n (clock + 1)).ok, (healthLoop w s n (clock + 1)).clock,
            Event.httpGet (serviceUrl s) :: Event.sleep 1 ::
              (healthLoop w s n (clock + 1)).events⟩ : ProbeResult).ok
          = (healthLoop w s n (clock + 1)).ok from rfl]
      rw [ih (clock + 1)]
      exact exists_attempt_shift (attemptSuccess w s) n clock ha

/-- When every attempt below the ceiling fails, the loop returns failure
after exactly `fuel` GET-then-sleep rounds at a fixed 1-second interval. -/
theorem healthLoop_all_fail (w : World) (s : ServiceConfig) :
    ∀ fuel clock, (∀ i, i < fuel → attemptSuccess w s (clock + i) = false) →
      healthLoop w s fuel clock =
        ⟨false, clock + fuel,
         (List.replicate fuel [Event.httpGet (serviceUrl s), Event.sleep 1]).flatten⟩ := by
  intro fuel
  induction fuel with
  | zero =>
    intro clock _
    simp [healthLoop]
  | succ n ih =>
    intro clock hall
    have h0 : attemptSuccess w s clock = false := by simpa using hall 0 (by omega)
    have hrest : ∀ i, i < n → attemptSuccess w s (clock + 1 + i) = false := by
      intro i hi
      have h := hall (i + 1) (by omega)
      rw [show clock + (i + 1) = clock + 1 + i by omega] at h
      exact h
    rw [healthLoop_succ, h0]
    simp only [Bool.false_eq_true, if_false, ih (clock + 1) hrest]
    rw [show clock + 1 + n = clock + (n + 1) by omega]
    simp [List.replicate_succ]

/-- With a non-empty endpoint, `_check_service_health` is the HTTP loop. -/
theorem checkServiceHealth_of_endpoint (w : World) (s : ServiceConfig) (fuel clock : Nat)
    (h : s.health_endpoint ≠ "") :
    checkServiceHealth w s fuel clock = healthLoop w s fuel clock := by
  simp [checkServiceHealth, h]

/-- In an unreachable world every health check fails. -/
theorem checkServiceHealth_unreachable (w : World) (hw : Unreachable w)
    (s : ServiceConfig) (fuel clock : Nat) :
    (checkServiceHealth w s fuel clock).ok = false := by
  by_cases he : s.health_endpoint = ""
  · simp [checkServiceHealth, he, checkPort, hw.2]
  · rw [checkServiceHealth_of_endpoint w s fuel clock he]
    rw [Bool.eq_false_iff]
    intro hcontra
    rcases (healthLoop_ok_iff w s fuel clock).mp hcontra with ⟨i, _, hs⟩
    rw [attemptSuccess, hw.1] at hs
    cases hs

/-- In an unreachable world `statusLoop` reports `false` everywhere. -/
theorem statusLoop_unreachable (w : World) (hw : Unreachable w) :
    ∀ services clock, ((statusLoop w services clock).1 : List (String × Bool))
      = services.map (fun p => (p.1, false)) := by
  intro services
  induction services with
  | nil =>
    intro clock
    simp [statusLoop]
  | cons p rest ih =>
    intro clock
    cases p with
    | mk nm svc =>
      simp [statusLoop, ih, checkServiceHealth_unreachable w hw]

end StartServices

namespace StartServices

/-- Claim C2: `stop_services` empties the running set from every state in
every world — including worlds where the teardown commands exit non-zero:
in `teardownFailWorld` every command returns 1, yet the non-empty running
set of `runningState` is still cleared (the failure is only reported). -/
theorem claim2_stop_always_clears :
    (∀ (w : World) (names : Option (List String)) (st : ManagerState),
       (stop_services w names st).state.running_services = ∅) ∧
    teardownFailWorld.runCommand ["docker-compose", "-f", "docker-compose.yml", "down"] = 1 ∧
    runningState.running_services ≠ ∅ ∧
    (stop_services teardownFailWorld none runningState).state.running_services = ∅ := by
  refine ⟨fun w names st => rfl, rfl, ?_, rfl⟩
  decide

/-- Claim C4: for a service with a non-empty health path, the probe
succeeds iff some attempt below the attempt ceiling obtains an HTTP
response with status strictly below 400 (a request exception fails that
attempt); when every attempt below the ceiling fails, the probe performs
exactly ceiling-many rounds of one GET followed by a fixed 1-second sleep
(no backoff) and returns failure. -/
theorem claim4_probe_retry_semantics (w : World) (s : ServiceConfig) (timeout clock : Nat)
    (h : s.health_endpoint ≠ "") :
    ((checkServiceHealth w s timeout clock).ok = true ↔
      ∃ i, i < timeout ∧ attemptSuccess w s (clock + i) = true) ∧
    ((∀ i, i < timeout → attemptSuccess w s (clock + i) = false) →
      checkServiceHealth w s timeout clock =
        ⟨false, clock + timeout,
         (List.replicate timeout [Event.httpGet (serviceUrl s), Event.sleep 1]).flatten⟩) := by
  rw [checkServiceHealth_of_endpoint w s timeout clock h]
  exact ⟨healthLoop_ok_iff w s timeout clock, healthLoop_all_fail w s timeout clock⟩

/-- Witness for claim C4: service B in the unreachable world exhausts all
60 attempts and fails. -/
theorem claim4_probe_retry_semantics_witness :
    checkServiceHealth unreachableWorld svcB 60 0 =
      ⟨false, 0 + 60,
       (List.replicate 60 [Event.httpGet (serviceUrl svcB), Event.sleep 1]).flatten⟩ :=
  (claim4_probe_retry_semantics unreachableWorld svcB 60 0 (by decide)).2 (fun _ _ => rfl)

/-- Claim C5: with an empty health path a health check is exactly one TCP
connect against host:port — the result is the connect outcome, exactly
one probe happens, and no HTTP request is ever issued. -/
theorem claim5_empty_path_tcp_only (w : World) (s : ServiceConfig) (timeout clock : Nat)
    (h : s.health_endpoint = "") :
    checkServiceHealth w s timeout clock =
      ⟨w.portOpen s.host s.port clock, clock + 1, [Event.tcpConnect s.host s.port]⟩ ∧
    ∀ u, Event.httpGet u ∉ (checkServiceHealth w s timeout clock).events := by
  have he : checkServiceHealth w s timeout clock = checkPort w s.host s.port clock := by
    simp [checkServiceHealth, h]
  refine ⟨by rw [he]; rfl, ?_⟩
  intro u
  rw [he]
  simp [checkPort]

/-- Witness for claim C5: the TCP-only service D in the unreachable
world. -/
theorem claim5_empty_path_tcp_only_witness :
    checkServiceHealth unreachableWorld svcD 30 0 =
      ⟨unreachableWorld.portOpen "localhost" 1002 0, 0 + 1, [Event.tcpConnect "localhost" 1002]⟩ :=
  (claim5_empty_path_tcp_only unreachableWorld svcD 30 0 rfl).1

/-- Claim C6: when every registered service is unreachable, `status`
reports every registered name mapped to false (the embedding is a total
function, so no exception arises), and `status` never mutates the
running set in any state. -/
theorem claim6_status_unreachable (w : World) (st : ManagerState)
    (h1 : ∀ u t, w.httpStatus u t = none) (h2 : ∀ hst p t, w.portOpen hst p t = false) :
    (status w st).report = st.services.map (fun p => (p.1, false)) ∧
    (∀ (w' : World) (st' : ManagerState),
      (status w' st').state.running_services = st'.running_services) := by
  refine ⟨?_, fun w' st' => rfl⟩
  show (statusLoop w st.services st.clock).1 = _
  exact statusLoop_unreachable w ⟨h1, h2⟩ st.services st.clock

/-- Witness for claim C6: in the unreachable world the full hard-coded
registry reports false for all twenty services. -/
theorem claim6_status_unreachable_witness :
    (status unreachableWorld initialState).report =
      initialState.services.map (fun p => (p.1, false)) ∧
    initialState.services.map (fun p => (p.1, false)) =
      [("postgres", false), ("clickhouse", false), ("neo4j", false), ("weaviate", false),
       ("qdrant", false), ("rabbitmq", false), ("supabase-db", false), ("supabase-auth", false),
       ("kong", false), ("openwebui", false), ("localai", false), ("flowise", false),
       ("n8n", false), ("prometheus", false), ("grafana", false), ("loki", false),
       ("opensearch", false), ("graylog", false), ("opendiscourse-api", false),
       ("opendiscourse-worker", false)] :=
  ⟨(claim6_status_unreachable unreachableWorld initialState (fun _ _ => rfl)
      (fun _ _ _ => rfl)).1, by decide⟩

/-- Claim C9: starting with the empty list behaves identically to
starting with the argument omitted — the empty list is falsy, so both
target every registered service. -/
theorem claim9_empty_names_all (w : World) (st : ManagerState) :
    start_services w (some []) st = start_services w none st := rfl

/-- Claim C10: `stop_services` never reads its names argument — any two
argument values (a singleton list included) issue the same teardown
commands over all compose files and produce the same final state. -/
theorem claim10_stop_names_irrelevant (w : World) (n1 n2 : Option (List String))
    (st : ManagerState) : stop_services w n1 st = stop_services w n2 st := rfl

end StartServices

namespace StartServices

/-- Every event of a health check of `s` is a probe of `s` or a sleep. -/
theorem healthLoop_events (w : World) (s : ServiceConfig) :
    ∀ fuel clock, ∀ e ∈ (healthLoop w s fuel clock).events, eventOfService e s := by
  intro fuel
  induction fuel with
  | zero =>
    intro clock e he
    simp [healthLoop] at he
  | succ n ih =>
    intro clock e he
    rw [healthLoop_succ] at he
    cases ha : attemptSuccess w s clock with
    | true =>
      rw [ha, if_pos rfl] at he
      simp only [List.mem_singleton] at he
      exact Or.inl he
    | false =>
      rw [ha] at he
      simp only [Bool.false_eq_true, if_false, List.mem_cons] at he
      rcases he with h | h | h
      · exact Or.inl h
      · exact Or.inr (Or.inr h)
      · exact ih (clock + 1) e h

/-- Every event of `_check_service_health` on `s` concerns `s` only. -/
theorem checkServiceHealth_events (w : World) (s : ServiceConfig) (fuel clock : Nat) :
    ∀ e ∈ (checkServiceHealth w s fuel clock).events, eventOfService e s := by
  intro e he
  by_cases h : s.health_endpoint = ""
  · simp only [checkServiceHealth, h, if_pos, checkPort, List.mem_singleton] at he
    exact Or.inr (Or.inl he)
  · rw [checkServiceHealth_of_endpoint w s fuel clock h] at he
    exact healthLoop_events w s fuel clock e he

/-- Every event of the dependency wait is a probe of (or sleep between
probes of) some registered dependency in the list. -/
theorem waitForDeps_events (w : World) (services : List (String × ServiceConfig)) :
    ∀ deps clock, ∀ e ∈ (waitForDeps w services deps clock).events,
      ∃ d ds, d ∈ deps ∧ lookupService services d = some ds ∧ eventOfService e ds := by
  intro deps
  induction deps with
  | nil =>
    intro clock e he
    simp [waitForDeps] at he
  | cons d0 rest ih =>
    intro clock e he
    rw [waitForDeps] at he
    cases hl : lookupService services d0 with
    | none =>
      rw [hl] at he
      rcases ih clock e he with ⟨d, ds, hd, hds, hev⟩
      exact ⟨d, ds, List.mem_cons_of_mem d0 hd, hds, hev⟩
    | some ds0 =>
      rw [hl] at he
      simp only [] at he
      cases hok : (checkServiceHealth w ds0 60 clock).ok with
      | true =>
        rw [hok, if_pos rfl] at he
        rcases List.mem_append.mp he with h1 | h2
        · exact ⟨d0, ds0, List.mem_cons_self d0 rest, hl,
            checkServiceHealth_events w ds0 60 clock e h1⟩
        · rcases ih _ e h2 with ⟨d, ds, hd, hds, hev⟩
          exact ⟨d, ds, List.mem_cons_of_mem d0 hd, hds, hev⟩
      | false =>
        rw [hok] at he
        simp only [Bool.false_eq_true, if_false] at he
        exact ⟨d0, ds0, List.mem_cons_self d0 rest, hl,
          checkServiceHealth_events w ds0 60 clock e he⟩

/-- If some registered dependency in the list never passes its health
check, the dependency wait reports failure. -/
theorem waitForDeps_fail (w : World) (services : List (String × ServiceConfig)) :
    ∀ deps clock d ds, d ∈ deps → lookupService services d = some ds →
      (∀ t, (checkServiceHealth w ds 60 t).ok = false) →
      (waitForDeps w services deps clock).ok = false := by
  intro deps
  induction deps with
  | nil =>
    intro clock d ds hd
    exact absurd hd (List.not_mem_nil d)
  | cons d0 rest ih =>
    intro clock d ds hd hds hNever
    rw [waitForDeps]
    cases hl : lookupService services d0 with
    | none =>
      rcases List.mem_cons.mp hd with heq | hmem
      · subst heq
        rw [hds] at hl
        cases hl
      · exact ih clock d ds hmem hds hNever
    | some ds0 =>
      cases hok : (checkServiceHealth w ds0 60 clock).ok with
      | false => simp [hok]
      | true =>
        rcases List.mem_cons.mp hd with heq | hmem
        · subst heq
          rw [hds] at hl
          injection hl with h'
          subst h'
          rw [hNever clock] at hok
          cases hok
        · simp only [hok, if_pos rfl]
          exact ih _ d ds hmem hds hNever

/-- When the dependency wait fails, the per-service step does nothing
beyond that wait: the running set is untouched and the only events are
the dependency probes. -/
theorem startOneService_skip (w : World) (services : List (String × ServiceConfig))
    (nm : String) (svc : ServiceConfig) (running : Finset String) (clock : Nat)
    (hl : lookupService services nm = some svc)
    (hfail : (waitForDeps w services svc.dependencies clock).ok = false) :
    startOneService w services nm running clock =
      ⟨running, (waitForDeps w services svc.dependencies clock).clock,
       (waitForDeps w services svc.dependencies clock).events⟩ := by
  unfold startOneService
  rw [hl]
  simp [hfail]

/-- The per-service step only ever grows the running set. -/
theorem startOneService_running_subset (w : World)
    (services : List (String × ServiceConfig)) (nm : String)
    (running : Finset String) (clock : Nat) :
    running ⊆ (startOneService w services nm running clock).running := by
  unfold startOneService
  cases hl : lookupService services nm with
  | none => exact fun x hx => hx
  | some svc =>
    cases hd : (waitForDeps w services svc.dependencies clock).ok with
    | false =>
      simp only [hd, Bool.false_eq_true, if_false]
      exact fun x hx => hx
    | true =>
      simp only [hd, if_pos rfl]
      cases hh : (checkServiceHealth w svc 60 (waitForDeps w services svc.dependencies clock).clock).ok with
      | false =>
        simp only [hh, Bool.false_eq_true, if_false]
        exact fun x hx => hx
      | true =>
        simp only [hh, if_pos rfl]
        exact Finset.subset_insert nm running

/-- The health-check phase only ever grows the running set. -/
theorem healthPhase_running_subset (w : World)
    (services : List (String × ServiceConfig)) :
    ∀ names running clock, running ⊆ (healthPhase w services names running clock).running := by
  intro names
  induction names with
  | nil =>
    intro running clock
    exact fun x hx => hx
  | cons nm rest ih =>
    intro running clock
    show running ⊆ (healthPhase w services rest
      (startOneService w services nm running clock).running
      (startOneService w services nm running clock).clock).running
    exact Finset.Subset.trans (startOneService_running_subset w services nm running clock)
      (ih _ _)

/-- When the dependency wait and the service's own probe both succeed,
the step inserts the service into the running set. -/
theorem startOneService_healthy (w : World) (services : List (String × ServiceConfig))
    (nm : String) (svc : ServiceConfig) (running : Finset String) (clock : Nat)
    (hl : lookupService services nm = some svc)
    (hok : (waitForDeps w services svc.dependencies clock).ok = true)
    (hh : (checkServiceHealth w svc 60
      (waitForDeps w services svc.dependencies clock).clock).ok = true) :
    (startOneService w services nm running clock).running = insert nm running := by
  unfold startOneService
  rw [hl]
  simp [hok, hh]

/-- A registered dependency-free service that passes every health check
ends up in the running set after the health-check phase. -/
theorem healthPhase_mem_of_healthy (w : World)
    (services : List (String × ServiceConfig)) :
    ∀ names running clock nm svc, nm ∈ names → lookupService services nm = some svc →
      svc.dependencies = [] → (∀ t, (checkServiceHealth w svc 60 t).ok = true) →
      nm ∈ (healthPhase w services names running clock).running := by
  intro names
  induction names with
  | nil =>
    intro running clock nm svc h
    exact absurd h (List.not_mem_nil nm)
  | cons n0 rest ih =>
    intro running clock nm svc hmem hl hdeps hAll
    show nm ∈ (healthPhase w services rest
      (startOneService w services n0 running clock).running
      (startOneService w services n0 running clock).clock).running
    rcases List.mem_cons.mp hmem with heq | hmem'
    · subst heq
      have hok : (waitForDeps w services svc.dependencies clock).ok = true := by
        rw [hdeps]
        rfl
      have hstep : nm ∈ (startOneService w services nm running clock).running := by
        rw [startOneService_healthy w services nm svc running clock hl hok (hAll _)]
        exact Finset.mem_insert_self nm running
      exact Finset.mem_of_subset (healthPhase_running_subset w services rest _ _) hstep
    · exact ih _ _ nm svc hmem' hl hdeps hAll

end StartServices

namespace StartServices

/-- Claim C1: a target service with a registered dependency that never
passes its health check within the attempt ceiling is skipped — nothing
is added to the running set and, whenever the service's probe endpoint
differs from those of its dependencies, no probe of the service itself
occurs (first conjunct); an independent service with no dependencies
that answers every probe still starts (second conjunct); and in the
concrete two-service scene — A healthy with no dependencies, B depending
on A but itself unhealthy — `start_services` reports A healthy, B failed,
and the running set ends exactly {A} (third conjunct). -/
theorem claim1_dep_failure_gates_service :
    (∀ (w : World) (services : List (String × ServiceConfig)) (nm : String)
       (svc : ServiceConfig) (running : Finset String) (clock : Nat),
      lookupService services nm = some svc →
      (∃ d ds, d ∈ svc.dependencies ∧ lookupService services d = some ds ∧
        ∀ t, (checkServiceHealth w ds 60 t).ok = false) →
      (∀ d ds, d ∈ svc.dependencies → lookupService services d = some ds →
        serviceUrl ds ≠ serviceUrl svc ∧ ¬(ds.host = svc.host ∧ ds.port = svc.port)) →
      (startOneService w services nm running clock).running = running ∧
      Event.httpGet (serviceUrl svc) ∉ (startOneService w services nm running clock).events ∧
      Event.tcpConnect svc.host svc.port ∉ (startOneService w services nm running clock).events) ∧
    (∀ (w : World) (services : List (String × ServiceConfig)) (names : List String)
       (running : Finset String) (clock : Nat) (nm : String) (svc : ServiceConfig),
      nm ∈ names → lookupService services nm = some svc → svc.dependencies = [] →
      (∀ t, (checkServiceHealth w svc 60 t).ok = true) →
      nm ∈ (healthPhase w services names running clock).running) ∧
    ((start_services abWorld none abState).ok = true ∧
      "A" ∈ (start_services abWorld none abState).state.running_services ∧
      "B" ∉ (start_services abWorld none abState).state.running_services ∧
      (start_services abWorld none abState).state.running_services = {"A"}) := by
  refine ⟨?_, ?_, by decide, by decide, by decide, by decide⟩
  · intro w services nm svc running clock hl hex hdist
    rcases hex with ⟨d, ds, hd, hds, hNever⟩
    have hfail : (waitForDeps w services svc.dependencies clock).ok = false :=
      waitForDeps_fail w services svc.dependencies clock d ds hd hds hNever
    rw [startOneService_skip w services nm svc running clock hl hfail]
    refine ⟨rfl, ?_, ?_⟩
    · intro hmem
      rcases waitForDeps_events w services svc.dependencies clock _ hmem with
        ⟨d', ds', hd', hds', hev⟩
      rcases hev with h | h | h
      · injection h with h'
        exact (hdist d' ds' hd' hds').1 h'.symm
      · exact Event.noConfusion h
      · exact Event.noConfusion h
    · intro hmem
      rcases waitForDeps_events w services svc.dependencies clock _ hmem with
        ⟨d', ds', hd', hds', hev⟩
      rcases hev with h | h | h
      · exact Event.noConfusion h
      · injection h with h1 h2
        exact (hdist d' ds' hd' hds').2 ⟨h1.symm, h2.symm⟩
      · exact Event.noConfusion h
  · intro w services names running clock nm svc hmem hl hdeps hAll
    exact healthPhase_mem_of_healthy w services names running clock nm svc hmem hl hdeps hAll

/-- Witness for claim C1: with everything unreachable, service S (whose
dependency D never becomes healthy) is skipped and the running set stays
empty; in the A/B scene, A still starts. -/
theorem claim1_dep_failure_gates_service_witness :
    (startOneService unreachableWorld sdServices "S" ∅ 0).running = ∅ ∧
    "A" ∈ (start_services abWorld none abState).state.running_services := by
  constructor
  · refine (claim1_dep_failure_gates_service.1 unreachableWorld sdServices "S" svcS ∅ 0
      rfl ⟨"D", svcD, by decide, rfl, fun _ => rfl⟩ ?_).1
    intro d ds hd hds
    have hdD : d = "D" := by
      have hS : svcS.dependencies = ["D"] := rfl
      rw [hS] at hd
      simpa using hd
    subst hdD
    have hdsD : ds = svcD := by
      have hlook : lookupService sdServices "D" = some svcD := rfl
      rw [hlook] at hds
      injection hds with h'
      exact h'.symm
    subst hdsD
    exact ⟨by decide, by decide⟩
  · exact claim1_dep_failure_gates_service.2.2.2.1

/-- Claim C8: a dependency name absent from the registry is skipped by
the dependency wait: dropping it from the head of the list changes
nothing (first conjunct), a list consisting solely of dangling names
waits successfully with no probe at all (second conjunct), and the
dependent service itself is then still probed, joining the running set
exactly when healthy (third conjunct); the embedding is a total
function, so nothing is raised. -/
theorem claim8_dangling_dependency_skipped :
    (∀ (w : World) (services : List (String × ServiceConfig)) (d : String)
       (rest : List String) (clock : Nat),
      lookupService services d = none →
      waitForDeps w services (d :: rest) clock = waitForDeps w services rest clock) ∧
    (∀ (w : World) (services : List (String × ServiceConfig)) (deps : List String)
       (clock : Nat),
      (∀ d, d ∈ deps → lookupService services d = none) →
      waitForDeps w services deps clock = ⟨true, clock, []⟩) ∧
    (∀ (w : World) (services : List (String × ServiceConfig)) (nm : String)
       (svc : ServiceConfig) (running : Finset String) (clock : Nat),
      lookupService services nm = some svc →
      (∀ d, d ∈ svc.dependencies → lookupService services d = none) →
      startOneService w services nm running clock =
        ⟨if (checkServiceHealth w svc 60 clock).ok then insert nm running else running,
         (checkServiceHealth w svc 60 clock).clock,
         (checkServiceHealth w svc 60 clock).events⟩) := by
  have part1 : ∀ (w : World) (services : List (String × ServiceConfig)) (d : String)
      (rest : List String) (clock : Nat),
      lookupService services d = none →
      waitForDeps w services (d :: rest) clock = waitForDeps w services rest clock := by
    intro w services d rest clock h
    simp only [waitForDeps, h]
  have part2 : ∀ (w : World) (services : List (String × ServiceConfig))
      (deps : List String) (clock : Nat),
      (∀ d, d ∈ deps → lookupService services d = none) →
      waitForDeps w services deps clock = ⟨true, clock, []⟩ := by
    intro w services deps
    induction deps with
    | nil =>
      intro clock _
      rfl
    | cons d rest ih =>
      intro clock hall
      rw [part1 w services d rest clock (hall d (List.mem_cons_self d rest))]
      exact ih clock (fun d' hd' => hall d' (List.mem_cons_of_mem d hd'))
  refine ⟨part1, part2, ?_⟩
  intro w services nm svc running clock hl hall
  unfold startOneService
  rw [hl]
  simp [part2 w services svc.dependencies clock hall]

/-- Witness for claim C8: service X's dependency "ghost" is absent from
the registry; the wait skips it and X itself is still probed. -/
theorem claim8_dangling_dependency_skipped_witness :
    waitForDeps unreachableWorld xServices ["ghost"] 0 =
      waitForDeps unreachableWorld xServices [] 0 ∧
    startOneService unreachableWorld xServices "X" ∅ 0 =
      ⟨if (checkServiceHealth unreachableWorld svcX 60 0).ok then insert "X" ∅ else ∅,
       (checkServiceHealth unreachableWorld svcX 60 0).clock,
       (checkServiceHealth unreachableWorld svcX 60 0).events⟩ := by
  constructor
  · exact claim8_dangling_dependency_skipped.1 unreachableWorld xServices "ghost" [] 0 rfl
  · refine claim8_dangling_dependency_skipped.2.2 unreachableWorld xServices "X" svcX ∅ 0
      rfl ?_
    intro d hd
    have hdG : d = "ghost" := by
      have hX : svcX.dependencies = ["ghost"] := rfl
      rw [hX] at hd
      simpa using hd
    subst hdG
    rfl

/-- Claim C7: restart is stop, a fixed 5-second settle sleep, then start
(first conjunct, the definitional decomposition); from a state with an
empty running set the stop is a state no-op — the stopped state equals
the input state — so restart returns exactly start's outcome and final
state, with only the no-op stop's teardown commands and the settle sleep
prepended to the event trace (second conjunct). -/
theorem claim7_restart_stop_then_start :
    (∀ (w : World) (names : Option (List String)) (st : ManagerState),
      restart_services w names st =
        { ok := (start_services w names (stop_services w names st).state).ok,
          state := (start_services w names (stop_services w names st).state).state,
          events := (stop_services w names st).events ++ [Event.sleep 5] ++
            (start_services w names (stop_services w names st).state).events }) ∧
    (∀ (w : World) (names : Option (List String)) (st : ManagerState),
      st.running_services = ∅ →
      (stop_services w names st).state = st ∧
      (restart_services w names st).ok = (start_services w names st).ok ∧
      (restart_services w names st).state = (start_services w names st).state ∧
      (restart_services w names st).events =
        (stop_services w names st).events ++ [Event.sleep 5] ++
          (start_services w names st).events) := by
  constructor
  · intro w names st
    rfl
  · intro w names st h
    have hstop : (stop_services w names st).state = st := by
      cases st with
      | mk services running files clock =>
        have h' : running = ∅ := h
        rw [show (stop_services w names ⟨services, running, files, clock⟩).state =
          ⟨services, ∅, files, clock⟩ from rfl, h']
    refine ⟨hstop, ?_, ?_, ?_⟩
    · rw [show (restart_services w names st).ok =
        (start_services w names (stop_services w names st).state).ok from rfl, hstop]
    · rw [show (restart_services w names st).state =
        (start_services w names (stop_services w names st).state).state from rfl, hstop]
    · rw [show (restart_services w names st).events =
        (stop_services w names st).events ++ [Event.sleep 5] ++
          (start_services w names (stop_services w names st).state).events from rfl, hstop]

/-- Witness for claim C7: the A/B scene starts from an empty running
set. -/
theorem claim7_restart_stop_then_start_witness :
    (stop_services abWorld none abState).state = abState ∧
    (restart_services abWorld none abState).state =
      (start_services abWorld none abState).state :=
  ⟨(claim7_restart_stop_then_start.2 abWorld none abState rfl).1,
   (claim7_restart_stop_then_start.2 abWorld none abState rfl).2.2.1⟩

/-- Counterexample to claim C3 as stated: in `upFailWorld` the docker
version probes succeed and service A answers every health probe with
status 200, yet the non-zero `docker-compose up` makes `start_services`
return failure immediately — the event trace shows the run stops right
after the up command, so the per-service health-check phase is never
reached (no probe event occurs) and the state is unchanged. -/
theorem claim3_counterexample :
    (start_services upFailWorld none upFailState).ok = false ∧
    (start_services upFailWorld none upFailState).state = upFailState ∧
    (start_services upFailWorld none upFailState).events =
      [Event.cmd ["docker", "version"], Event.cmd ["docker-compose", "version"],
       Event.setupEnv, Event.cmd ["docker-compose", "-f", "docker-compose.yml", "up", "-d"]] ∧
    (checkServiceHealth upFailWorld svcA 60 0).ok = true :=
  ⟨rfl, rfl, rfl, rfl⟩

/-- Claim C3 amended: non-zero exits of the teardown commands are only
reported — `stop_services` continues past them, still clearing the
running set and still attempting the teardown of every existing compose
file (second conjunct); but `start_services` is fatal not only when the
docker version probe fails: a non-zero `docker-compose up` exit also
aborts it before the per-service health-check phase, returning failure
with the state unchanged (first conjunct). -/
theorem claim3_amended (w : World) (names : Option (List String)) (st : ManagerState)
    (hdc : (checkDocker w).1 = true)
    (hup : (composeUpPhase w st.docker_compose_files).1 = false) :
    start_services w names st =
      { ok := false, state := st,
        events := (checkDocker w).2 ++ [Event.setupEnv] ++
          (composeUpPhase w st.docker_compose_files).2 } ∧
    (∀ (w' : World) (names' : Option (List String)) (st' : ManagerState),
      (stop_services w' names' st').state.running_services = ∅ ∧
      (stop_services w' names' st').events = composeDownEvents w' st'.docker_compose_files) := by
  refine ⟨?_, fun w' names' st' => ⟨rfl, rfl⟩⟩
  simp [start_services, hdc, hup]

/-- Witness for claim C3 amended: the concrete failing-up world. -/
theorem claim3_amended_witness :
    start_services upFailWorld none upFailState =
      { ok := false, state := upFailState,
        events := (checkDocker upFailWorld).2 ++ [Event.setupEnv] ++
          (composeUpPhase upFailWorld upFailState.docker_compose_files).2 } :=
  (claim3_amended upFailWorld none upFailState rfl rfl).1

end StartServices
